import Mathlib

/-!
Verification of the ThumbyColor audio synthesizer (`thumbycolor_hw.c`).

The audio subsystem is embedded shallowly: machine integers become `Nat`
(with explicit `% 2^32` where the C code can wrap), the `int` arithmetic
that can go negative becomes `Int` with C's truncating division
(`Int.tdiv`), and the mutable globals (`audio_channels`, `master_volume`,
`lfsr`) become an explicit `AudioState` record threaded through the
operations.
-/

/-- One note record of a PICO-8 sound effect: `pitch, waveform, volume,
effect`, each an unsigned 8-bit field (`uint8_t notes[32][4]`). -/
structure Note where
  pitch : Nat
  waveform : Nat
  volume : Nat
  effect : Nat
deriving Repr, DecidableEq

/-- The `P8SFX` record: `speed`, `loop_start`, `loop_end` and 32 notes. -/
structure P8SFX where
  speed : Nat
  loop_start : Nat
  loop_end : Nat
  notes : List Note
deriving Repr, DecidableEq

/-- `p8_freq_table`: the 64-entry PICO-8 pitch-to-frequency table. -/
def p8_freq_table : List Nat :=
  [65, 69, 73, 78, 82, 87, 92, 98,
   104, 110, 117, 123, 131, 139, 147, 156,
   165, 175, 185, 196, 208, 220, 233, 247,
   262, 277, 294, 311, 330, 349, 370, 392,
   415, 440, 466, 494, 523, 554, 587, 622,
   659, 698, 740, 784, 831, 880, 932, 988,
   1047, 1109, 1175, 1245, 1319, 1397, 1480, 1568,
   1661, 1760, 1865, 1976, 2093, 2217, 2349, 2489]

/-- `p8_freq_table[pitch]` (only ever read with `pitch < 64`). -/
def freqAt (pitch : Nat) : Nat := p8_freq_table.getD pitch 0

/-- Shorthand used to transcribe the note tables. -/
def nt (p w v e : Nat) : Note := ⟨p, w, v, e⟩

/-- SFX 0: Laser fire (speed 1, loop 0–13). -/
def sfx0 : P8SFX :=
  ⟨1, 0, 13,
   [nt 50 2 3 0, nt 51 2 3 0, nt 51 2 3 0, nt 49 2 1 0,
    nt 46 2 3 0, nt 41 2 3 0, nt 36 2 4 0, nt 34 2 3 0,
    nt 32 2 3 0, nt 29 2 3 0, nt 28 2 3 0, nt 28 2 2 0,
    nt 28 2 1 0, nt 28 2 0 0, nt 28 0 0 0, nt 0 0 0 0,
    nt 50 4 0 0, nt 52 4 0 0, nt 52 4 0 0, nt 49 4 0 0,
    nt 46 4 0 0, nt 41 4 0 0, nt 36 4 0 0, nt 34 4 0 0,
    nt 32 4 0 0, nt 29 4 0 0, nt 28 4 0 0, nt 28 4 0 0,
    nt 28 4 0 0, nt 1 4 0 0, nt 1 4 0 0, nt 1 4 0 0]⟩

/-- SFX 1: Player damage / barrel roll (speed 5, no loop). -/
def sfx1 : P8SFX :=
  ⟨5, 0, 0,
   [nt 36 6 7 0, nt 36 6 7 0, nt 39 6 7 0, nt 42 6 7 0,
    nt 49 6 7 0, nt 56 6 7 0, nt 63 6 7 0, nt 63 6 7 0,
    nt 48 6 7 0, nt 41 6 7 0, nt 36 6 7 0, nt 32 6 7 0,
    nt 30 6 6 0, nt 28 6 6 0, nt 27 6 5 0, nt 26 6 5 0,
    nt 25 6 4 0, nt 25 6 4 0, nt 24 6 3 0, nt 25 6 3 0,
    nt 26 6 2 0, nt 28 6 2 0, nt 32 6 1 0, nt 35 6 1 0,
    nt 10 6 0 0, nt 11 6 0 0, nt 13 6 0 0, nt 16 6 0 0,
    nt 18 6 0 0, nt 20 6 0 0, nt 23 6 0 0, nt 24 6 0 0]⟩

/-- SFX 2: Hit enemy / explosion (speed 3, no loop). -/
def sfx2 : P8SFX :=
  ⟨3, 0, 0,
   [nt 45 6 7 0, nt 41 4 7 0, nt 36 4 7 0, nt 25 6 7 0,
    nt 30 4 7 0, nt 32 6 7 0, nt 29 6 7 0, nt 13 6 7 0,
    nt 22 6 7 0, nt 20 4 7 0, nt 16 4 7 0, nt 15 4 7 0,
    nt 19 6 7 0, nt 11 4 7 0, nt 9 4 7 0, nt 7 6 6 0,
    nt 7 4 5 0, nt 5 4 4 0, nt 8 6 3 0, nt 2 4 2 0,
    nt 1 4 1 0, nt 12 6 0 0, nt 5 6 0 0, nt 1 6 0 0,
    nt 1 6 0 0, nt 1 6 0 0, nt 3 6 0 0, nt 1 6 0 0,
    nt 2 6 0 0, nt 1 6 0 0, nt 1 6 0 0, nt 0 0 0 0]⟩

/-- SFX 3: unused placeholder (speed 1, no loop). -/
def sfx3 : P8SFX :=
  ⟨1, 0, 0,
   [nt 60 3 7 0, nt 60 0 7 0, nt 55 1 7 0, nt 57 0 7 0,
    nt 54 0 7 0, nt 51 0 7 0, nt 47 1 7 0, nt 48 0 7 0,
    nt 41 0 7 0, nt 34 0 7 0, nt 32 0 7 0, nt 27 0 7 0,
    nt 23 0 7 0, nt 29 1 7 0, nt 20 0 7 0, nt 19 0 7 0,
    nt 18 0 7 0, nt 18 0 7 0, nt 19 0 7 0, nt 21 0 7 0,
    nt 18 1 7 0, nt 23 0 7 0, nt 18 1 7 0, nt 30 0 7 0,
    nt 39 0 7 0, nt 44 0 7 0, nt 53 0 7 0, nt 54 0 7 0,
    nt 28 1 7 0, nt 33 1 7 0, nt 46 1 7 0, nt 0 0 0 0]⟩

/-- SFX 4: unused placeholder (speed 1, loop 0–13). -/
def sfx4 : P8SFX :=
  ⟨1, 0, 13,
   [nt 44 4 4 0, nt 18 0 4 0, nt 1 0 2 0, nt 16 0 0 0,
    nt 0 0 0 0, nt 0 0 0 0, nt 0 0 0 0, nt 0 0 0 0,
    nt 0 0 0 0, nt 0 0 0 0, nt 0 0 0 0, nt 0 0 0 0,
    nt 0 0 0 0, nt 0 0 0 0, nt 0 0 0 0, nt 0 0 0 0,
    nt 0 0 0 0, nt 0 0 0 0, nt 0 0 0 0, nt 0 0 0 0,
    nt 0 0 0 0, nt 0 0 0 0, nt 0 0 0 0, nt 0 0 0 0,
    nt 0 0 0 0, nt 0 0 0 0, nt 0 0 0 0, nt 0 0 0 0,
    nt 0 0 0 0, nt 0 0 0 0, nt 0 0 0 0, nt 0 0 0 0]⟩

/-- SFX 5: Bonus pickup (speed 1, no loop). -/
def sfx5 : P8SFX :=
  ⟨1, 0, 0,
   [nt 44 4 7 0, nt 40 4 7 0, nt 35 4 7 0, nt 32 4 7 0,
    nt 28 4 7 0, nt 26 4 7 0, nt 23 4 6 0, nt 21 4 4 0,
    nt 21 4 2 0, nt 20 4 0 0, nt 22 4 0 0, nt 0 0 0 0,
    nt 0 0 0 0, nt 0 0 0 0, nt 0 0 0 0, nt 0 0 0 0,
    nt 0 0 0 0, nt 0 0 0 0, nt 0 0 0 0, nt 0 0 0 0,
    nt 0 0 0 0, nt 0 0 0 0, nt 0 0 0 0, nt 0 0 0 0,
    nt 0 0 0 0, nt 0 0 0 0, nt 0 0 0 0, nt 0 0 0 0,
    nt 0 0 0 0, nt 0 0 0 0, nt 0 0 0 0, nt 0 0 0 0]⟩

/-- SFX 6: Boss spawn (speed 24, no loop); note 0 is a rest. -/
def sfx6 : P8SFX :=
  ⟨24, 0, 0,
   [nt 0 0 0 0, nt 7 3 6 0, nt 20 1 4 0, nt 7 3 6 0,
    nt 20 1 4 0, nt 26 3 7 0, nt 20 1 4 0, nt 27 3 7 0,
    nt 1 4 4 0, nt 23 3 7 0, nt 23 3 7 0, nt 23 3 7 0,
    nt 23 3 7 0, nt 23 3 6 0, nt 23 3 5 0, nt 23 3 0 0,
    nt 1 4 0 0, nt 1 4 0 0, nt 23 3 0 0, nt 11 4 0 0,
    nt 23 0 0 0, nt 23 0 0 0, nt 23 0 0 0, nt 23 0 0 0,
    nt 0 0 0 0, nt 0 0 0 0, nt 0 0 0 0, nt 0 0 0 0,
    nt 0 0 0 0, nt 0 0 0 0, nt 0 0 0 0, nt 0 0 0 0]⟩

/-- SFX 7: Boss damage (speed 32, no loop); notes 22–29 carry
out-of-range pitches (68, 82, 102, 118) with nonzero volume. -/
def sfx7 : P8SFX :=
  ⟨32, 0, 0,
   [nt 13 2 7 0, nt 13 2 7 0, nt 8 2 7 0, nt 8 2 7 0,
    nt 4 2 7 0, nt 4 2 7 0, nt 1 2 7 0, nt 1 2 7 0,
    nt 1 2 7 0, nt 1 2 7 0, nt 1 2 7 0, nt 1 2 7 0,
    nt 18 0 0 0, nt 18 0 0 0, nt 18 0 0 0, nt 18 0 0 0,
    nt 19 0 0 0, nt 20 0 0 0, nt 50 0 2 0, nt 20 0 0 0,
    nt 20 0 0 0, nt 52 0 4 0, nt 68 0 4 0, nt 82 0 4 0,
    nt 118 0 5 0, nt 82 0 4 0, nt 102 0 4 0, nt 82 0 4 0,
    nt 82 0 4 0, nt 82 0 4 0, nt 1 0 4 0, nt 0 0 0 0]⟩

/-- `hyperspace_sfx`: the fixed 8-entry sound-effect library. -/
def hyperspace_sfx : List P8SFX := [sfx0, sfx1, sfx2, sfx3, sfx4, sfx5, sfx6, sfx7]

/-- The default note used only as an out-of-range read fallback. -/
def noteDefault : Note := ⟨0, 0, 0, 0⟩

/-- `sfx.notes[i]`. -/
def getNote (fx : P8SFX) (i : Nat) : Note := fx.notes.getD i noteDefault

/-- `hyperspace_sfx[n]` (only ever read with `n < 8`). -/
def getSfx (n : Nat) : P8SFX := hyperspace_sfx.getD n sfx0

/-- The mutable `AudioChannel` record. `sfx` models the `const P8SFX*`
pointer (`none` = `NULL`); the integer fields are the C fields with the
same names. -/
structure AudioChannel where
  sfx : Option P8SFX
  note_index : Nat
  sample_count : Nat
  samples_per_note : Nat
  phase : Nat
  phase_inc : Nat
  volume : Nat
  waveform : Nat
  active : Bool
  looping : Bool
deriving Repr, DecidableEq

/-- A channel as zero-initialized static storage, with `active=false`
and `sfx=NULL` as set by `thumbycolor_audio_init`. -/
def chanDefault : AudioChannel :=
  ⟨none, 0, 0, 0, 0, 0, 0, 0, false, false⟩

/-- The synthesizer's global mutable state: the 4-entry
`audio_channels` array, `master_volume` and the noise `lfsr`. -/
structure AudioState where
  channels : List AudioChannel
  master_volume : Nat
  lfsr : Nat
deriving Repr, DecidableEq

/-- Globals as initialized at boot: 4 idle channels,
`master_volume = 200`, `lfsr = 0xACE1`. -/
def initState : AudioState :=
  ⟨[chanDefault, chanDefault, chanDefault, chanDefault], 200, 0xACE1⟩

/-- `gen_triangle`: `p = (uint16_t)(phase >> 8)`; rising ramp for
`p < 128`, else `255 - (p - 128) * 2` truncated to `uint8_t`. -/
def gen_triangle (phase : Nat) : Nat :=
  let p := (phase >>> 8) % 65536
  if p < 128 then p * 2
  else (((255 : Int) - ((p : Int) - 128) * 2) % 256).toNat

/-- `gen_saw`: `(uint8_t)(phase >> 8)`. -/
def gen_saw (phase : Nat) : Nat := (phase >>> 8) % 256

/-- `gen_square`: 255 while `(uint16_t)(phase >> 8) < duty`, else 0. -/
def gen_square (phase duty : Nat) : Nat :=
  let p := (phase >>> 8) % 65536
  if p < duty then 255 else 0

/-- One step of the 16-bit noise LFSR
(`lfsr = (lfsr >> 1) | (bit << 15)` with taps 0,2,3,5). -/
def lfsrStep (l : Nat) : Nat :=
  let bit := (l ^^^ (l >>> 2) ^^^ (l >>> 3) ^^^ (l >>> 5)) % 2
  (l >>> 1) ||| (bit <<< 15)

/-- `gen_noise`: advances the LFSR once and returns its low byte,
threading the global `lfsr` explicitly. -/
def gen_noise (l : Nat) : Nat × Nat := (lfsrStep l % 256, lfsrStep l)

/-- The waveform `switch` of `audio_generate_sample`: one channel's raw
8-bit sample, together with the (possibly advanced) LFSR state. -/
def chanSample (c : AudioChannel) (l : Nat) : Nat × Nat :=
  match c.waveform with
  | 0 => (gen_triangle c.phase, l)
  | 1 => (gen_saw c.phase, l)
  | 2 => (gen_saw c.phase, l)
  | 3 => (gen_square c.phase 128, l)
  | 4 => (gen_square c.phase 64, l)
  | 5 => ((gen_square c.phase 128 + gen_square (c.phase * 2 % 4294967296) 128) / 2, l)
  | 6 => gen_noise l
  | 7 => ((gen_saw c.phase + gen_saw ((c.phase + 8192) % 4294967296)) / 2, l)
  | _ => (128, l)

/-- The per-channel body of the mixer loop: a contributing channel
(`active` and nonzero volume) yields its updated state, its signed
volume-scaled contribution `(sample - 128) * volume / 7`, the new LFSR
and count 1; a skipped channel yields everything unchanged and count 0. -/
def mixStep (c : AudioChannel) (l : Nat) : AudioChannel × Int × Nat × Nat :=
  if c.active = true ∧ c.volume ≠ 0 then
    let sl := chanSample c l
    let vol_sample : Int := Int.tdiv (((sl.1 : Int) - 128) * (c.volume : Int)) 7
    ({ c with phase := (c.phase + c.phase_inc) % 4294967296 }, vol_sample, sl.2, 1)
  else (c, 0, l, 0)

/-- The mixer's channel loop: updated channels, accumulated signed mix,
final LFSR, and `active_count`. -/
def mixFold : List AudioChannel → Nat → List AudioChannel × Int × Nat × Nat
  | [], l => ([], 0, l, 0)
  | c :: cs, l =>
    let r := mixStep c l
    let rest := mixFold cs r.2.2.1
    (r.1 :: rest.1, r.2.1 + rest.2.1, rest.2.2.1, r.2.2.2 + rest.2.2.2)

/-- `audio_generate_sample`: mixes all channels, averages over the
contributing count, applies master volume, re-centers at 128 and clamps
to `[0, 255]`; returns the emitted sample and the new global state. -/
def audio_generate_sample (s : AudioState) : Nat × AudioState :=
  let r := mixFold s.channels s.lfsr
  let mix : Int := if 0 < r.2.2.2 then Int.tdiv r.2.1 (r.2.2.2 : Int) else r.2.1
  let out : Int := 128 + Int.tdiv (mix * (s.master_volume : Int)) 255
  let clamped : Int := if out < 0 then 0 else if 255 < out then 255 else out
  (clamped.toNat, ⟨r.1, s.master_volume, r.2.2.1⟩)

/-- The tail of `thumbycolor_sfx` that starts playing SFX `fx` on a
channel: resets position and phase, derives `samples_per_note` from the
speed (floor 183), loads note 0, and activates the channel only when
note 0 has a valid pitch and nonzero volume (`phase_inc` is left
untouched otherwise). -/
def startSfx (fx : P8SFX) (c : AudioChannel) : AudioChannel :=
  let spn0 := fx.speed * 183
  let spn := if spn0 < 183 then 183 else spn0
  let n0 := getNote fx 0
  let base := { c with sfx := some fx, note_index := 0, sample_count := 0,
                       phase := 0, samples_per_note := spn,
                       waveform := n0.waveform, volume := n0.volume }
  let act :=
    if n0.pitch < 64 ∧ 0 < n0.volume then
      { base with phase_inc := freqAt n0.pitch * 65536 / 22050, active := true }
    else { base with active := false }
  { act with looping := fx.loop_start < fx.loop_end }

/-- `thumbycolor_sfx(n, channel)`: no-op for an out-of-range channel;
`n = -1` stops that channel, `n = -2` stops all channels, other negative
or out-of-range ids are a no-op, and a valid id starts the SFX. -/
def thumbycolor_sfx (n channel : Int) (s : AudioState) : AudioState :=
  if channel < 0 ∨ 4 ≤ channel then s
  else
    let i := channel.toNat
    if n = -1 then
      { s with channels := s.channels.set i { s.channels.getD i chanDefault with active := false } }
    else if n = -2 then
      { s with channels := s.channels.map fun c => { c with active := false } }
    else if n < 0 ∨ 8 ≤ n then s
    else { s with channels := s.channels.set i (startSfx (getSfx n.toNat) (s.channels.getD i chanDefault)) }

/-- Loading the note at index `ni` during a note advance: takes its
waveform and volume; a valid audible note sets `phase_inc` from the
frequency table, a zero-volume note sets `phase_inc = 0` (rest), and an
out-of-range pitch with nonzero volume deactivates the channel. -/
def loadNote (fx : P8SFX) (ni : Nat) (c : AudioChannel) : AudioChannel :=
  let n := getNote fx ni
  let base := { c with note_index := ni, waveform := n.waveform, volume := n.volume }
  if n.pitch < 64 ∧ 0 < n.volume then
    { base with phase_inc := freqAt n.pitch * 65536 / 22050 }
  else if n.volume = 0 then { base with phase_inc := 0 }
  else { base with active := false }

/-- The per-channel body of `thumbycolor_audio_update`: inactive or
SFX-less channels are skipped; otherwise `sample_count` advances by
`22050 / 60` samples and, on reaching `samples_per_note`, the note index
advances with loop wrap, end-of-sequence deactivation past index 31, and
note loading. -/
def updateChannel (c : AudioChannel) : AudioChannel :=
  match c.sfx with
  | none => c
  | some fx =>
    if c.active = false then c
    else
      let sc := c.sample_count + 22050 / 60
      if sc < c.samples_per_note then { c with sample_count := sc }
      else
        let ni := c.note_index + 1
        if c.looping = true ∧ fx.loop_end ≤ ni then
          loadNote fx fx.loop_start { c with sample_count := 0 }
        else if 32 ≤ ni then
          { c with sample_count := 0, note_index := ni, active := false }
        else loadNote fx ni { c with sample_count := 0 }

/-- `thumbycolor_audio_update`: advances every channel in index order. -/
def thumbycolor_audio_update (s : AudioState) : AudioState :=
  { s with channels := s.channels.map updateChannel }

/-- `thumbycolor_set_volume`. -/
def thumbycolor_set_volume (v : Nat) (s : AudioState) : AudioState :=
  { s with master_volume := v }

-- sanity checks (C truncating division, table reads)
example : Int.tdiv (-7) 2 = -3 := by decide
example : freqAt 51 = 1245 := by decide
example : (getNote sfx7 22).pitch = 68 := by decide
example : ((thumbycolor_sfx 0 0 initState).channels.getD 0 chanDefault).active = true := by decide
example :
    ((thumbycolor_audio_update (thumbycolor_sfx 0 0 initState)).channels.getD 0 chanDefault).note_index = 1 := by
  decide

/-! ## Helper lemmas about the mixer loop -/

/-- The waveform switch touches the LFSR exactly for waveform 6. -/
lemma chanSample_lfsr (c : AudioChannel) (l : Nat) :
    (chanSample c l).2 = if c.waveform = 6 then lfsrStep l else l := by
  unfold chanSample
  split <;> simp_all [gen_noise]

/-- The channel written back by one mixer step: phase advances for a
contributing channel, everything else is untouched. -/
lemma mixStep_channel (c : AudioChannel) (l : Nat) :
    (mixStep c l).1 =
      if c.active = true ∧ c.volume ≠ 0 then
        { c with phase := (c.phase + c.phase_inc) % 4294967296 }
      else c := by
  by_cases h : c.active = true ∧ c.volume ≠ 0 <;> simp [mixStep, h]

/-- The LFSR after one mixer step. -/
lemma mixStep_lfsr (c : AudioChannel) (l : Nat) :
    (mixStep c l).2.2.1 =
      if (c.active = true ∧ c.volume ≠ 0) ∧ c.waveform = 6 then lfsrStep l else l := by
  by_cases h : c.active = true ∧ c.volume ≠ 0
  · simp [mixStep, h, chanSample_lfsr]
  · simp [mixStep, h]

/-- The mixer loop updates the channel list pointwise. -/
lemma mixFold_channels (cs : List AudioChannel) (l : Nat) :
    (mixFold cs l).1 =
      cs.map fun c =>
        if c.active = true ∧ c.volume ≠ 0 then
          { c with phase := (c.phase + c.phase_inc) % 4294967296 }
        else c := by
  induction cs generalizing l with
  | nil => rfl
  | cons c cs ih => simp [mixFold, mixStep_channel, ih]

/-- Predicate for a channel that reads the noise generator in a given
sample: contributing (`active`, nonzero volume) and waveform 6. -/
def isNoiseContributor (c : AudioChannel) : Bool :=
  c.active && (c.volume != 0) && (c.waveform == 6)

lemma isNoiseContributor_iff (c : AudioChannel) :
    isNoiseContributor c = true ↔ (c.active = true ∧ c.volume ≠ 0) ∧ c.waveform = 6 := by
  simp [isNoiseContributor, and_assoc]

/-- The mixer loop advances the LFSR once per contributing
noise-waveform channel. -/
lemma mixFold_lfsr (cs : List AudioChannel) (l : Nat) :
    (mixFold cs l).2.2.1 = lfsrStep^[cs.countP isNoiseContributor] l := by
  induction cs generalizing l with
  | nil => rfl
  | cons c cs ih =>
    have hc : (mixStep c l).2.2.1 = lfsrStep^[if isNoiseContributor c then 1 else 0] l := by
      rw [mixStep_lfsr]
      by_cases h : (c.active = true ∧ c.volume ≠ 0) ∧ c.waveform = 6
      · rw [if_pos h, if_pos ((isNoiseContributor_iff c).2 h)]
        rfl
      · rw [if_neg h, if_neg fun hb => h ((isNoiseContributor_iff c).1 hb)]
        rfl
    simp only [mixFold, ih, hc, List.countP_cons]
    rw [Function.iterate_add_apply]

/-- A list of non-contributing channels passes through the mixer loop
with no mix, no count and no LFSR movement. -/
lemma mixFold_silent (cs : List AudioChannel) (l : Nat)
    (h : ∀ c ∈ cs, c.active = false ∨ c.volume = 0) :
    mixFold cs l = (cs, 0, l, 0) := by
  induction cs with
  | nil => rfl
  | cons c cs ih =>
    have hc : ¬(c.active = true ∧ c.volume ≠ 0) := by
      rcases h c (by simp) with h1 | h1 <;> simp [h1]
    have hrest := ih fun x hx => h x (by simp [hx])
    simp [mixFold, mixStep, hc, hrest]

/-- On a silent channel array the emitted sample is exactly 128. -/
lemma sample_silent (s : AudioState)
    (h : ∀ c ∈ s.channels, c.active = false ∨ c.volume = 0) :
    (audio_generate_sample s).1 = 128 := by
  simp [audio_generate_sample, mixFold_silent s.channels s.lfsr h]

/-- `thumbycolor_sfx(-2, ch)` with a valid channel index deactivates
every channel and changes nothing else. -/
lemma sfx_stop_all (s : AudioState) (ch : Int) (h0 : 0 ≤ ch) (h4 : ch < 4) :
    thumbycolor_sfx (-2) ch s =
      { s with channels := s.channels.map fun c => { c with active := false } } := by
  unfold thumbycolor_sfx
  rw [if_neg (by omega), if_neg (by decide), if_pos rfl]

/-! ## Claim theorems -/

/-- C6: `play(0, 0)` followed by one sequencer update (whose per-frame
elapsed `22050 / 60 = 367` samples reaches `units_per_note = 183`)
advances channel 0 from note 0 to note 1 and sets `phase_inc` to the
value derived from note 1 pitch, `p8_freq_table[pitch] * 65536 / 22050`. -/
theorem c6_play_then_update_advances :
    (((thumbycolor_sfx 0 0 initState).channels.getD 0 chanDefault).note_index = 0
      ∧ ((thumbycolor_sfx 0 0 initState).channels.getD 0 chanDefault).samples_per_note = 183
      ∧ 183 ≤ 22050 / 60)
    ∧ ((thumbycolor_audio_update (thumbycolor_sfx 0 0 initState)).channels.getD 0
          chanDefault).note_index = 1
    ∧ ((thumbycolor_audio_update (thumbycolor_sfx 0 0 initState)).channels.getD 0
          chanDefault).phase_inc = freqAt (getNote (getSfx 0) 1).pitch * 65536 / 22050 := by
  decide

/-- C10: one mixer invocation rewrites the channel array pointwise:
a channel that is active with nonzero volume gets exactly its `phase`
advanced by `phase_inc` (mod 2^32) and nothing else, and every other
channel is returned unchanged in all fields; the master volume is also
unchanged. -/
theorem c10_mixer_touches_only_phase (s : AudioState) :
    (audio_generate_sample s).2.channels =
      (s.channels.map fun c =>
        if c.active = true ∧ c.volume ≠ 0 then
          { c with phase := (c.phase + c.phase_inc) % 4294967296 }
        else c)
    ∧ (audio_generate_sample s).2.master_volume = s.master_volume := by
  constructor
  · simp [audio_generate_sample, mixFold_channels]
  · rfl

/-- C4: the mixer always emits a value in [0, 255], and whenever every
channel is inactive or has zero volume — in particular after the
stop-all call `thumbycolor_sfx(-2, ch)` on a valid channel — the
emitted sample is exactly 128. -/
theorem c4_mixer_range_and_silence (s : AudioState) :
    (audio_generate_sample s).1 ≤ 255
    ∧ ((∀ c ∈ s.channels, c.active = false ∨ c.volume = 0) →
        (audio_generate_sample s).1 = 128)
    ∧ (∀ ch : Int, 0 ≤ ch → ch < 4 →
        (audio_generate_sample (thumbycolor_sfx (-2) ch s)).1 = 128) := by
  refine ⟨?_, fun h => sample_silent s h, fun ch h0 h4 => ?_⟩
  · unfold audio_generate_sample
    dsimp only
    split_ifs <;> omega
  · rw [sfx_stop_all s ch h0 h4]
    apply sample_silent
    intro c hc
    simp only [List.mem_map] at hc
    obtain ⟨a, _, ha⟩ := hc
    left
    rw [← ha]

/-- Witness for C4 at concrete inputs: the boot state is silent, and a
stop-all on channel 0 yields a 128 sample. -/
theorem c4_witness :
    (audio_generate_sample initState).1 = 128
    ∧ (audio_generate_sample (thumbycolor_sfx (-2) 0 initState)).1 = 128 :=
  ⟨(c4_mixer_range_and_silence initState).2.1 (by decide),
   (c4_mixer_range_and_silence initState).2.2 0 (by decide) (by decide)⟩

/-- C2 (amended): one mixer invocation advances the global noise LFSR
once per contributing channel with waveform 6 (not once per sample):
the final LFSR is `lfsrStep` iterated as many times as there are
active, nonzero-volume, waveform-6 channels. -/
theorem c2_lfsr_once_per_noise_channel (s : AudioState) :
    (audio_generate_sample s).2.lfsr =
      lfsrStep^[s.channels.countP isNoiseContributor] s.lfsr := by
  simp [audio_generate_sample, mixFold_lfsr]

/-- A channel playing noise (waveform 6) at full volume. -/
def noiseChan : AudioChannel :=
  ⟨some sfx1, 0, 0, 915, 0, freqAt 36 * 65536 / 22050, 7, 6, true, false⟩

/-- A state with two simultaneously contributing noise channels. -/
def twoNoiseState : AudioState :=
  ⟨[noiseChan, noiseChan, chanDefault, chanDefault], 200, 0xACE1⟩

/-- C2 counterexample: with two contributing waveform-6 channels in the
same sample, the LFSR does not advance exactly once (it advances twice),
and the two channels receive different, not identical, noise samples. -/
theorem c2_counterexample :
    (audio_generate_sample twoNoiseState).2.lfsr ≠ lfsrStep twoNoiseState.lfsr
    ∧ (chanSample noiseChan twoNoiseState.lfsr).1
        ≠ (chanSample noiseChan (chanSample noiseChan twoNoiseState.lfsr).2).1 := by
  decide

/-- C5 counterexample: at phase 32768 the top 16 bits are 0 (first half
of the claimed period), yet the waveform-3 sample emitted by the mixer
switch is 0, not 255. -/
theorem c5_counterexample :
    (chanSample ⟨none, 0, 0, 0, 32768, 0, 7, 3, true, false⟩ 0xACE1).1 = 0
    ∧ (32768 >>> 16) % 65536 < 32768 := by
  decide

/-- C5 (amended): for a waveform-3 channel the mixer switch evaluates
`gen_square(phase, 128)`, which is 255 exactly when the 16-bit value
`(uint16_t)(phase >> 8)` (bits 8-23 of the accumulator, not its top 16
bits) is below the duty 128, and 0 otherwise. -/
theorem c5_square_wave_characterization (c : AudioChannel) (l : Nat)
    (h : c.waveform = 3) :
    (chanSample c l).1 = gen_square c.phase 128
    ∧ ((chanSample c l).1 = 255 ↔ (c.phase >>> 8) % 65536 < 128)
    ∧ ((chanSample c l).1 = 0 ↔ ¬((c.phase >>> 8) % 65536 < 128)) := by
  have h1 : (chanSample c l).1 = gen_square c.phase 128 := by
    simp [chanSample, h]
  refine ⟨h1, ?_, ?_⟩ <;> rw [h1] <;> simp only [gen_square] <;>
    split_ifs with hp <;> simp [hp]

/-- Witness for C5 (amended) at phase 0 and 32768. -/
theorem c5_witness :
    (chanSample ⟨none, 0, 0, 0, 0, 0, 7, 3, true, false⟩ 0xACE1).1 = 255
    ∧ (chanSample ⟨none, 0, 0, 0, 32768, 0, 7, 3, true, false⟩ 0xACE1).1 = 0 :=
  ⟨(c5_square_wave_characterization ⟨none, 0, 0, 0, 0, 0, 7, 3, true, false⟩
      0xACE1 rfl).2.1.2 (by decide),
   (c5_square_wave_characterization ⟨none, 0, 0, 0, 32768, 0, 7, 3, true, false⟩
      0xACE1 rfl).2.2.2 (by decide)⟩

/-- C8: a play call with an out-of-range non-negative sequence id, or
with an out-of-range channel id, leaves the whole synthesizer state
(channels, master volume, LFSR) exactly as it was. -/
theorem c8_out_of_range_play_is_noop (s : AudioState) (n ch : Int) :
    (0 ≤ n → 8 ≤ n → thumbycolor_sfx n ch s = s)
    ∧ ((ch < 0 ∨ 4 ≤ ch) → thumbycolor_sfx n ch s = s) := by
  constructor
  · intro h1 h2
    unfold thumbycolor_sfx
    split_ifs <;> first | rfl | omega
  · intro h
    unfold thumbycolor_sfx
    rw [if_pos h]

/-- Witness for C8: `play(999, 0)` and `play(0, 99)` on the boot state. -/
theorem c8_witness :
    thumbycolor_sfx 999 0 initState = initState
    ∧ thumbycolor_sfx 0 99 initState = initState :=
  ⟨(c8_out_of_range_play_is_noop initState 999 0).1 (by decide) (by decide),
   (c8_out_of_range_play_is_noop initState 0 99).2 (Or.inr (by decide))⟩

/-- C9: the stop sentinels are gated on the channel argument: with an
out-of-range channel both `sfx(-1, ch)` and the stop-all `sfx(-2, ch)`
change nothing; with a valid channel, stop-all deactivates every
channel (and changes nothing else). -/
theorem c9_stop_sentinels_gated_on_channel (s : AudioState) (ch : Int) :
    ((ch < 0 ∨ 4 ≤ ch) →
      thumbycolor_sfx (-1) ch s = s ∧ thumbycolor_sfx (-2) ch s = s)
    ∧ (0 ≤ ch → ch < 4 →
      thumbycolor_sfx (-2) ch s =
        { s with channels := s.channels.map fun c => { c with active := false } }
      ∧ ∀ c ∈ (thumbycolor_sfx (-2) ch s).channels, c.active = false) := by
  constructor
  · intro h
    constructor <;> (unfold thumbycolor_sfx; rw [if_pos h])
  · intro h0 h4
    have hs := sfx_stop_all s ch h0 h4
    refine ⟨hs, ?_⟩
    rw [hs]
    intro c hc
    simp only [List.mem_map] at hc
    obtain ⟨a, _, ha⟩ := hc
    rw [← ha]

/-- Witness for C9: stop on channel 7, stop-all on channel -3 (both
no-ops), and stop-all on channel 0 (all channels inactive). -/
theorem c9_witness :
    thumbycolor_sfx (-1) 7 initState = initState
    ∧ thumbycolor_sfx (-2) (-3) initState = initState
    ∧ ∀ c ∈ (thumbycolor_sfx (-2) 0 initState).channels, c.active = false :=
  ⟨((c9_stop_sentinels_gated_on_channel initState 7).1 (Or.inr (by decide))).1,
   ((c9_stop_sentinels_gated_on_channel initState (-3)).1 (Or.inl (by decide))).2,
   ((c9_stop_sentinels_gated_on_channel initState 0).2 (by decide) (by decide)).2⟩

/-! ## C1: deactivation during note advance -/

/-- The note index a note advance moves to (loop wrap applied), as
computed by `thumbycolor_audio_update`. -/
def nextNoteIndex (c : AudioChannel) (fx : P8SFX) : Nat :=
  if c.looping = true ∧ fx.loop_end ≤ c.note_index + 1 then fx.loop_start
  else c.note_index + 1

/-- The advance ran past the last note (index 32 reached) without the
loop wrap applying. -/
def runsPastEnd (c : AudioChannel) (fx : P8SFX) : Prop :=
  ¬(c.looping = true ∧ fx.loop_end ≤ c.note_index + 1) ∧ 32 ≤ c.note_index + 1

instance (c : AudioChannel) (fx : P8SFX) : Decidable (runsPastEnd c fx) := by
  unfold runsPastEnd
  infer_instance

/-- A channel mid-way through SFX 7 (note 21, one frame before the note
advance fires), still active. -/
def c1Channel : AudioChannel :=
  ⟨some sfx7, 21, 5505, 5856, 0, freqAt 52 * 65536 / 22050, 4, 0, true, false⟩

/-- C1 counterexample: advancing this active channel loads note 22 of
SFX 7, whose pitch 68 is invalid (≥ 64) while its volume 4 is nonzero,
and the channel is deactivated — although the advance neither reached
index 32 nor was an explicit stop. -/
theorem c1_counterexample :
    (updateChannel c1Channel).active = false
    ∧ c1Channel.active = true
    ∧ c1Channel.note_index + 1 < 32
    ∧ c1Channel.looping = false
    ∧ 64 ≤ (getNote sfx7 (c1Channel.note_index + 1)).pitch
    ∧ 0 < (getNote sfx7 (c1Channel.note_index + 1)).volume := by
  decide

/-- C1 (amended): during a note advance an active channel is
deactivated only by running past note 31 without the loop wrap, or by
loading a note whose pitch is invalid (≥ 64) while its volume is
nonzero; loading a zero-volume note never deactivates it. -/
theorem c1_deactivation_characterization (c : AudioChannel) (fx : P8SFX)
    (hact : c.active = true) (hsfx : c.sfx = some fx) :
    ((updateChannel c).active = false →
      c.samples_per_note ≤ c.sample_count + 22050 / 60
      ∧ (runsPastEnd c fx
         ∨ (64 ≤ (getNote fx (nextNoteIndex c fx)).pitch
            ∧ 0 < (getNote fx (nextNoteIndex c fx)).volume)))
    ∧ (¬runsPastEnd c fx → (getNote fx (nextNoteIndex c fx)).volume = 0 →
        (updateChannel c).active = true) := by
  simp only [updateChannel, hsfx, hact, Bool.true_eq_false, if_false]
  by_cases hadv : c.sample_count + 22050 / 60 < c.samples_per_note
  · rw [if_pos hadv]
    exact ⟨fun hfalse => absurd hfalse (by simp), fun _ _ => rfl⟩
  · rw [if_neg hadv]
    by_cases hwrap : c.looping = true ∧ fx.loop_end ≤ c.note_index + 1
    · rw [if_pos hwrap]
      have hni : nextNoteIndex c fx = fx.loop_start := by
        simp [nextNoteIndex, hwrap]
      unfold loadNote
      by_cases hload : (getNote fx fx.loop_start).pitch < 64
          ∧ 0 < (getNote fx fx.loop_start).volume
      · rw [if_pos hload]
        exact ⟨fun hfalse => absurd hfalse (by simp), fun _ _ => rfl⟩
      · rw [if_neg hload]
        by_cases hv : (getNote fx fx.loop_start).volume = 0
        · rw [if_pos hv]
          exact ⟨fun hfalse => absurd hfalse (by simp), fun _ _ => rfl⟩
        · rw [if_neg hv]
          refine ⟨fun _ => ⟨by omega, Or.inr ?_⟩, fun _ hv2 => absurd (hni ▸ hv2) hv⟩
          rw [hni]
          constructor
          · omega
          · omega
    · rw [if_neg hwrap]
      have hni : nextNoteIndex c fx = c.note_index + 1 := by
        simp [nextNoteIndex, hwrap]
      by_cases hend : 32 ≤ c.note_index + 1
      · rw [if_pos hend]
        refine ⟨fun _ => ⟨by omega, Or.inl ⟨hwrap, hend⟩⟩, fun hnp _ => ?_⟩
        exact absurd ⟨hwrap, hend⟩ hnp
      · rw [if_neg hend]
        unfold loadNote
        by_cases hload : (getNote fx (c.note_index + 1)).pitch < 64
            ∧ 0 < (getNote fx (c.note_index + 1)).volume
        · rw [if_pos hload]
          exact ⟨fun hfalse => absurd hfalse (by simp), fun _ _ => rfl⟩
        · rw [if_neg hload]
          by_cases hv : (getNote fx (c.note_index + 1)).volume = 0
          · rw [if_pos hv]
            exact ⟨fun hfalse => absurd hfalse (by simp), fun _ _ => rfl⟩
          · rw [if_neg hv]
            refine ⟨fun _ => ⟨by omega, Or.inr ?_⟩, fun _ hv2 => absurd (hni ▸ hv2) hv⟩
            rw [hni]
            constructor
            · omega
            · omega

/-- A channel mid-way through SFX 5 about to advance to the rest at
note 9 (volume 0). -/
def c1RestChannel : AudioChannel :=
  ⟨some sfx5, 8, 0, 183, 0, freqAt 21 * 65536 / 22050, 2, 4, true, false⟩

/-- Witness for C1 (amended): the deactivated SFX 7 channel satisfies
the invalid-pitch disjunct, and advancing to the SFX 5 rest keeps the
channel active. -/
theorem c1_witness :
    (runsPastEnd c1Channel sfx7
      ∨ (64 ≤ (getNote sfx7 (nextNoteIndex c1Channel sfx7)).pitch
         ∧ 0 < (getNote sfx7 (nextNoteIndex c1Channel sfx7)).volume))
    ∧ (updateChannel c1RestChannel).active = true :=
  ⟨((c1_deactivation_characterization c1Channel sfx7 rfl rfl).1 (by decide)).2,
   (c1_deactivation_characterization c1RestChannel sfx5 rfl rfl).2
     (by decide) (by decide)⟩

/-! ## C3: an SFX whose first note is inaudible never plays -/

/-- C3: playing SFX 6 (whose note 0 is a rest, though note 1 is
audible) on channel 0 leaves the channel inactive, and every subsequent
sequencer update leaves the entire state unchanged, so the channel
never becomes audible. -/
theorem c3_inaudible_first_note_never_recovers :
    ((thumbycolor_sfx 6 0 initState).channels.getD 0 chanDefault).active = false
    ∧ (getNote sfx6 0).volume = 0
    ∧ ((getNote sfx6 1).pitch < 64 ∧ 0 < (getNote sfx6 1).volume)
    ∧ ∀ n : Nat, thumbycolor_audio_update^[n] (thumbycolor_sfx 6 0 initState)
        = thumbycolor_sfx 6 0 initState := by
  refine ⟨by decide, by decide, by decide, fun n => ?_⟩
  exact Function.iterate_fixed (by decide) n

/-! ## C7: the looping SFX 0 cycles through notes 0-12 forever -/

/-- The channel-0 state while SFX 0 loops, parameterized by the current
note index: note parameters follow the note table, `sample_count` is 0
because every frame advance (367 samples) exceeds the 183-sample note
length. -/
def c7state (i : Nat) : AudioChannel :=
  ⟨some sfx0, i, 0, 183, 0, freqAt (getNote sfx0 i).pitch * 65536 / 22050,
   (getNote sfx0 i).volume, (getNote sfx0 i).waveform, true, true⟩

/-- The full state while SFX 0 loops on channel 0. -/
def c7full (i : Nat) : AudioState :=
  ⟨[c7state i, chanDefault, chanDefault, chanDefault], 200, 0xACE1⟩

lemma c7_step : ∀ i : Fin 13,
    updateChannel (c7state i.val) = c7state ((i.val + 1) % 13) := by
  decide

lemma c7_full_step (i : Nat) (h : i < 13) :
    thumbycolor_audio_update (c7full i) = c7full ((i + 1) % 13) := by
  have hstep := c7_step ⟨i, h⟩
  have hd : updateChannel chanDefault = chanDefault := rfl
  simp only [thumbycolor_audio_update, c7full, List.map_cons, List.map_nil, hstep, hd]

lemma c7_iterate (n : Nat) :
    thumbycolor_audio_update^[n] (thumbycolor_sfx 0 0 initState) = c7full (n % 13) := by
  induction n with
  | zero => decide
  | succ n ih =>
    rw [Function.iterate_succ_apply', ih,
      c7_full_step (n % 13) (Nat.mod_lt _ (by norm_num))]
    have harith : (n % 13 + 1) % 13 = (n + 1) % 13 := by omega
    rw [harith]

/-- C7: after `play(0, 0)` (SFX 0 loops over notes 0-12 with
`loop_start = 0`, `loop_end = 13`), every sequencer update advances the
note index modulo 13 — so reaching index 13 wraps back to 0 — and no
number of updates ever deactivates channel 0. -/
theorem c7_looping_never_deactivates (n : Nat) :
    (getSfx 0).loop_start = 0 ∧ (getSfx 0).loop_end = 13
    ∧ ((thumbycolor_audio_update^[n] (thumbycolor_sfx 0 0 initState)).channels.getD 0
        chanDefault).active = true
    ∧ ((thumbycolor_audio_update^[n] (thumbycolor_sfx 0 0 initState)).channels.getD 0
        chanDefault).note_index = n % 13 := by
  rw [c7_iterate n]
  exact ⟨rfl, rfl, rfl, rfl⟩
